import Mathlib

/-!
Verification of the recommendation-generation pipeline of
`predictive-machine-maintenance-ml` (src/app.py).

The embedding models the two recommendation functions of the source:
`get_default_recommendations` (the rule-based fallback engine, lines 105-272)
and `get_ai_recommendations` (the AI path with its JSON extraction and
error handling, lines 19-103).  Sensor readings are modelled as exact
rationals, Python strings as Lean strings (or lists of characters where
Python index arithmetic matters), and the external collaborators
(`requests.post`, `json.loads`) as explicit inputs: the remote call's
outcome is a value of `RemoteOutcome` and the JSON decoder is a function
parameter, so every control-flow branch of the source is a branch of the
embedding.
-/

namespace PredMaint

/-- The three priority tokens `"high"`, `"medium"`, `"low"` used throughout
src/app.py. -/
inductive Priority where
  | high
  | medium
  | low
deriving DecidableEq

/-- One recommendation dict as built in src/app.py: keys `title`,
`description`, `icon`, `priority`.  Python `dict` equality (used by the
`rec not in recommendations` membership test of line 245) is equality of
all four fields. -/
structure Recommendation where
  title : String
  description : String
  icon : String
  priority : Priority
deriving DecidableEq

/-- The four raw sensor inputs of a request (air temperature and process
temperature in Kelvin, rotational speed in RPM, torque in N·m), modelled
as exact rationals. -/
structure Reading where
  airTemp : ℚ
  processTemp : ℚ
  rotationalSpeed : ℚ
  torque : ℚ
deriving DecidableEq

/-- Left-pad a numeral string with zeros to the given width (helper for
rendering fixed-point decimals). -/
def padZeros (width : Nat) (s : String) : String :=
  String.mk (List.replicate (width - s.length) '0') ++ s

/-- Decimal rendering with a fixed number of fraction digits, modelling the
Python format specs `:.1f` and `:.2f` used in the f-strings of src/app.py
(lines 119, 126, 223).  The rendered text is never branched on by the
source, so the exact tie-breaking rule of the float formatter is not
load-bearing; here ties round half up on the exact rational value. -/
def fmtFixed (digits : Nat) (q : ℚ) : String :=
  let p : ℤ := (10 : ℤ) ^ digits
  let n : ℤ := round (q * (p : ℚ))
  let sign := if n < 0 then "-" else ""
  sign ++ toString (n.natAbs / p.natAbs) ++ "." ++
    padZeros digits (toString (n.natAbs % p.natAbs))

/-- Python `str()` of a float-valued reading, for the raw f-string
interpolations `{rotational_speed}` and `{torque}` (lines 144, 151, 158,
166, 173, 180): integral values render with a trailing `.0`.  Like
`fmtFixed`, this text is never branched on by the source. -/
def pyStr (q : ℚ) : String :=
  if q.den = 1 then toString q.num ++ ".0" else toString q

/-- `temp_diff = process_temp - air_temp` (src/app.py line 112). -/
def temp_diff (r : Reading) : ℚ := r.processTemp - r.airTemp

/-- `air_temp_c = air_temp - 273.15` (src/app.py line 113). -/
def air_temp_c (r : Reading) : ℚ := r.airTemp - 273.15

/-- `process_temp_c = process_temp - 273.15` (src/app.py line 114). -/
def process_temp_c (r : Reading) : ℚ := r.processTemp - 273.15

/-- `power_estimate = (torque * rotational_speed * 2 * 3.14159) / 60000`
(src/app.py line 139).  The source uses the literal `3.14159`, not `π`. -/
def power_estimate (r : Reading) : ℚ :=
  (r.torque * r.rotationalSpeed * 2 * 3.14159) / 60000

/-- Thermal candidate: the `if temp_diff > 15 / elif process_temp_c > 50 /
else` cascade of src/app.py lines 116-136. -/
def thermalRecommendation (r : Reading) : Recommendation :=
  if temp_diff r > 15 then
    { title := "Cooling System Optimization"
      description := "Temperature differential of " ++ fmtFixed 1 (temp_diff r) ++
        "K detected. Check cooling efficiency, clean heat exchangers, and verify coolant flow rates to prevent thermal stress."
      icon := "fas fa-snowflake"
      priority := Priority.high }
  else if process_temp_c r > 50 then
    { title := "Temperature Monitoring Enhancement"
      description := "Process temperature at " ++ fmtFixed 1 (process_temp_c r) ++
        "°C requires attention. Implement continuous thermal monitoring and consider heat dissipation improvements."
      icon := "fas fa-thermometer-half"
      priority := Priority.medium }
  else
    { title := "Thermal Stability Maintenance"
      description := "Current thermal conditions are stable. Monitor temperature trends and maintain cooling system efficiency to prevent future overheating."
      icon := "fas fa-temperature-low"
      priority := Priority.low }

/-- Speed candidate: the `if rotational_speed > 2000 / elif < 1000 / else`
cascade of src/app.py lines 141-161. -/
def speedRecommendation (r : Reading) : Recommendation :=
  if r.rotationalSpeed > 2000 then
    { title := "High-Speed Bearing Maintenance"
      description := "Operating at " ++ pyStr r.rotationalSpeed ++
        " RPM requires premium lubrication. Schedule bearing inspection and use high-speed compatible lubricants."
      icon := "fas fa-tachometer-alt"
      priority := Priority.high }
  else if r.rotationalSpeed < 1000 then
    { title := "Low-Speed Operation Analysis"
      description := "Low speed operation at " ++ pyStr r.rotationalSpeed ++
        " RPM may indicate efficiency issues. Check for mechanical resistance and alignment problems."
      icon := "fas fa-search"
      priority := Priority.medium }
  else
    { title := "Optimal Speed Range Monitoring"
      description := "Current speed of " ++ pyStr r.rotationalSpeed ++
        " RPM is within normal range. Continue monitoring for speed variations and maintain consistent operation."
      icon := "fas fa-gauge"
      priority := Priority.low }

/-- Torque candidate: the `if torque > 50 / elif < 20 / else` cascade of
src/app.py lines 163-183. -/
def torqueRecommendation (r : Reading) : Recommendation :=
  if r.torque > 50 then
    { title := "High-Torque Component Inspection"
      description := "High torque load of " ++ pyStr r.torque ++
        " Nm detected. Inspect coupling alignment, check for mechanical stress, and verify fastener torque specifications."
      icon := "fas fa-wrench"
      priority := Priority.high }
  else if r.torque < 20 then
    { title := "Drive System Verification"
      description := "Low torque reading of " ++ pyStr r.torque ++
        " Nm may indicate slipping or reduced load transfer. Check belt tension and coupling integrity."
      icon := "fas fa-tools"
      priority := Priority.medium }
  else
    { title := "Torque Load Optimization"
      description := "Current torque of " ++ pyStr r.torque ++
        " Nm is within acceptable range. Monitor for load variations and optimize power transfer efficiency."
      icon := "fas fa-balance-scale"
      priority := Priority.low }

/-- Maintenance-urgency candidate: the `if prediction_result == 1 / else`
branch of src/app.py lines 186-199. -/
def maintenanceRecommendation (prediction_result : Nat) : Recommendation :=
  if prediction_result = 1 then
    { title := "Immediate Maintenance Protocol"
      description := "AI model indicates maintenance required. Schedule immediate inspection focusing on wear components, lubrication levels, and alignment checks."
      icon := "fas fa-exclamation-triangle"
      priority := Priority.high }
  else
    { title := "Preventive Maintenance Scheduling"
      description := "Machine is operating normally. Maintain current maintenance schedule and monitor parameter trends for early detection of changes."
      icon := "fas fa-calendar-check"
      priority := Priority.low }

/-- The `recommendations` list after the four appends of src/app.py
lines 109-199: one candidate per category, in source order (thermal,
speed, torque, maintenance urgency). -/
def cascadeCandidates (r : Reading) (prediction_result : Nat) : List Recommendation :=
  [thermalRecommendation r, speedRecommendation r,
   torqueRecommendation r, maintenanceRecommendation prediction_result]

/-- `additional_recommendations` (src/app.py lines 202-239): the fixed
six-element auxiliary pool, in source order.  Its fourth element
interpolates `power_estimate` with the `:.2f` format spec. -/
def additional_recommendations (r : Reading) : List Recommendation :=
  [{ title := "Vibration Analysis Implementation"
     description := "Conduct comprehensive vibration analysis to detect early signs of mechanical wear, misalignment, or bearing degradation before they cause failures."
     icon := "fas fa-wave-square"
     priority := Priority.medium },
   { title := "Lubrication Schedule Optimization"
     description := "Review and optimize lubrication intervals based on current operating conditions, load factors, and manufacturer specifications for maximum efficiency."
     icon := "fas fa-oil-can"
     priority := Priority.medium },
   { title := "Performance Trending & Analytics"
     description := "Establish comprehensive baseline performance metrics and implement advanced trend analysis for predictive maintenance optimization."
     icon := "fas fa-chart-line"
     priority := Priority.low },
   { title := "Energy Efficiency Audit"
     description := "With estimated power output of " ++ fmtFixed 2 (power_estimate r) ++
       " kW, conduct energy efficiency audit to identify optimization opportunities and reduce operational costs."
     icon := "fas fa-bolt"
     priority := Priority.medium },
   { title := "Safety Protocol Review"
     description := "Review current safety protocols and emergency procedures to ensure compliance with latest industrial safety standards and regulations."
     icon := "fas fa-shield-alt"
     priority := Priority.medium },
   { title := "Sensor Calibration Check"
     description := "Verify accuracy of temperature, speed, and torque sensors through calibration checks to ensure reliable data for predictive maintenance."
     icon := "fas fa-adjust"
     priority := Priority.low }]

/-- The backfill while-loop of src/app.py lines 242-247:
`while len(recommendations) < 4`, each iteration scans the pool in order
and appends the first item not already present (the inner
`len(recommendations) < 4` test coincides with the loop guard, since the
body appends at most once before `break`).  An iteration that finds no
addable pool item makes no progress, so the Python loop would not
terminate; that (unreachable) divergence is modelled by `none`, with the
fuel counting loop iterations — 5 iterations always suffice when the loop
can progress, since each successful iteration grows the list by one. -/
def poolBackfill (pool : List Recommendation) :
    Nat → List Recommendation → Option (List Recommendation)
  | 0, recommendations =>
      if recommendations.length < 4 then none else some recommendations
  | fuel + 1, recommendations =>
      if recommendations.length < 4 then
        match pool.find? (fun cand => decide (cand ∉ recommendations)) with
        | some cand => poolBackfill pool fuel (recommendations ++ [cand])
        | none => none
      else some recommendations

/-- The `if len(recommendations) > 4` priority-quota branch of src/app.py
lines 250-270, followed by the final `return recommendations[:4]` of line
272: keep up to 2 high-priority items in order, fill remaining slots from
the medium-priority items, then from the low-priority items.  (The
source's `if remaining_slots > 0` guard before the low-priority fill is
the same as taking a prefix of length `4 - len(final_recommendations)`,
which is the empty prefix when no slots remain.) -/
def priorityQuotaSelect (recommendations : List Recommendation) : List Recommendation :=
  if recommendations.length > 4 then
    let high_priority := recommendations.filter (fun cand => decide (cand.priority = Priority.high))
    let medium_priority := recommendations.filter (fun cand => decide (cand.priority = Priority.medium))
    let low_priority := recommendations.filter (fun cand => decide (cand.priority = Priority.low))
    let final1 := high_priority.take 2
    let final2 := final1 ++ medium_priority.take (4 - final1.length)
    let final3 := final2 ++ low_priority.take (4 - final2.length)
    final3.take 4
  else
    recommendations.take 4

/-- The final selection logic of src/app.py lines 241-272 as applied to an
arbitrary candidate list: pool backfill up to length 4, then the
priority-quota step and the `[:4]` truncation. -/
def selectStep (pool recommendations : List Recommendation) :
    Option (List Recommendation) :=
  (poolBackfill pool 5 recommendations).map priorityQuotaSelect

/-- `get_default_recommendations` (src/app.py lines 105-272): the four
cascade candidates, then the backfill loop over the auxiliary pool, then
the priority-quota step and truncation.  `none` models only the
(unreachable) divergence of the backfill loop. -/
def get_default_recommendations (r : Reading) (prediction_result : Nat) :
    Option (List Recommendation) :=
  selectStep (additional_recommendations r) (cascadeCandidates r prediction_result)

/-- The length of the high-priority sublist of a candidate list (the
`high_priority` filter of src/app.py line 251). -/
def countHigh (recommendations : List Recommendation) : Nat :=
  (recommendations.filter (fun cand => decide (cand.priority = Priority.high))).length

/-! ## The AI path

`get_ai_recommendations` (src/app.py lines 19-103) calls two external
collaborators: `requests.post` and `json.loads`.  The outcome of the
remote call is modelled by `RemoteOutcome` and the structural JSON
decoder by a function parameter `decode`, so the embedding covers every
behaviour of the collaborators while translating the source's own
control flow exactly. -/

/-- A structural JSON value, i.e. a possible result of `json.loads`. -/
inductive Json where
  | null
  | bool (b : Bool)
  | num (q : ℚ)
  | str (s : String)
  | arr (elems : List Json)
  | obj (fields : List (String × Json))

/-- Python `dict` subscription `payload["recommendations"]` as performed
on the result of `json.loads` (src/app.py line 93): a lookup that
succeeds only on an object carrying the key; on a non-object value
it raises `TypeError` and on an object without the key it raises
`KeyError`, both modelled as `none` (the inner `except` of line 94
catches every exception). -/
def Json.getKey (j : Json) (key : String) : Option Json :=
  match j with
  | .obj fields => (fields.find? (fun kv => kv.1 == key)).map (fun kv => kv.2)
  | _ => none

/-- Index of the first occurrence of a character, or `none`
(helper for Python `str.find` / `str.rfind`). -/
def firstIdx (c : Char) : List Char → Option Nat
  | [] => none
  | x :: xs => if x = c then some 0 else (firstIdx c xs).map (· + 1)

/-- Python `content.find(c)` on a string modelled as its character list:
index of the first occurrence, `-1` when absent (src/app.py line 89). -/
def pyFind (s : List Char) (c : Char) : Int :=
  match firstIdx c s with
  | some i => (i : Int)
  | none => -1

/-- Python `content.rfind(c)`: index of the last occurrence, `-1` when
absent (src/app.py line 90). -/
def pyRfind (s : List Char) (c : Char) : Int :=
  match firstIdx c s.reverse with
  | some i => (s.length : Int) - 1 - (i : Int)
  | none => -1

/-- Python slice-endpoint normalisation for a sequence of length `n`:
negative indices count from the end (clamped below at 0), non-negative
indices are clamped above at `n`. -/
def pyClampIndex (n : Nat) (i : Int) : Nat :=
  if i < 0 then ((n : Int) + i).toNat else min i.toNat n

/-- Python slice `s[a:b]` with full endpoint semantics. -/
def pySlice (s : List Char) (a b : Int) : List Char :=
  let lo := pyClampIndex s.length a
  let hi := pyClampIndex s.length b
  (s.drop lo).take (hi - lo)

/-- The JSON-extraction step of src/app.py lines 89-91:
`json_str = content[content.find(chr(123)) : content.rfind(chr(125)) + 1]`,
i.e. the substring from the first `'{'` to the last `'}'` inclusive
(with Python's `-1`-on-absence and slice semantics preserved). -/
def extractJsonCandidate (content : List Char) : List Char :=
  let start_idx := pyFind content '{'
  let end_idx := pyRfind content '}' + 1
  pySlice content start_idx end_idx

/-- The parse step of src/app.py lines 87-94: extract the brace-delimited
substring, decode it with `json.loads` (the `decode` parameter; `none`
models a `JSONDecodeError`), and subscript the result with
`"recommendations"`.  Any failure is `none`: the bare `except` of line 94
turns it into the fallback. -/
def parseAiResponse (decode : List Char → Option Json) (content : List Char) :
    Option Json :=
  match decode (extractJsonCandidate content) with
  | some payload => payload.getKey "recommendations"
  | none => none

/-- The outcome of the single `requests.post` call (src/app.py line 80):
either an exception during the request (timeout, connection error, ...),
or a reply with a status code and — when `response.json()` and the
`result["choices"][0]["message"]["content"]` subscription succeed — the
content string; `none` content models an exception in that body
extraction (caught by the outer `except` of line 101). -/
inductive RemoteOutcome where
  | exn
  | reply (status : Nat) (content : Option (List Char))
deriving DecidableEq

/-- What `get_ai_recommendations` returns: either the value found under
the `"recommendations"` key of the AI reply (returned verbatim, line 93),
or the result of the rule-based fallback. -/
inductive RecResult where
  | ai (payload : Json)
  | fallback (recommendations : List Recommendation)

/-- `true` exactly when the result came from the fallback path. -/
def RecResult.isFallbackPath : RecResult → Bool
  | .ai _ => false
  | .fallback _ => true

/-- The `Authorization` header value `f"Bearer {GROQ_API_KEY}"`
(src/app.py line 60): `os.getenv` yields `None` when the variable is
absent, and the f-string renders it as the text `None` — there is no
credential check anywhere in the source. -/
def bearerToken : Option String → String
  | some k => "Bearer " ++ k
  | none => "Bearer None"

/-- The request headers of src/app.py lines 59-62. -/
def requestHeaders (apiKey : Option String) : List (String × String) :=
  [("Authorization", bearerToken apiKey), ("Content-Type", "application/json")]

/-- `get_ai_recommendations` (src/app.py lines 19-103).  The headers are
built from the (possibly absent) API key and the request is always
issued; its outcome is the `outcome` argument.  A 200 reply whose content
parses yields the parsed value verbatim; every other outcome — request
exception, non-200 status, body-extraction exception, or parse failure —
returns `get_default_recommendations` (lines 94-103). -/
def get_ai_recommendations (decode : List Char → Option Json)
    (apiKey : Option String) (outcome : RemoteOutcome)
    (r : Reading) (prediction_result : Nat) : Option RecResult :=
  let _headers := requestHeaders apiKey
  match outcome with
  | .exn =>
      (get_default_recommendations r prediction_result).map RecResult.fallback
  | .reply status content =>
      if status = 200 then
        match content with
        | some c =>
            match parseAiResponse decode c with
            | some payload => some (RecResult.ai payload)
            | none =>
              (get_default_recommendations r prediction_result).map RecResult.fallback
        | none =>
            (get_default_recommendations r prediction_result).map RecResult.fallback
      else
        (get_default_recommendations r prediction_result).map RecResult.fallback

/-- "AI path unavailable": the outcomes that the source treats uniformly
by falling back — a request exception, a non-200 status, an exception
while extracting the reply body, or a parse failure on the content
(src/app.py lines 94-103). -/
def aiPathUnavailable (decode : List Char → Option Json) : RemoteOutcome → Prop
  | .exn => True
  | .reply status content =>
      status ≠ 200 ∨ content = none ∨
        ∀ c, content = some c → parseAiResponse decode c = none

/-! ## Helper lemmas -/

theorem cascadeCandidates_length (r : Reading) (p : Nat) :
    (cascadeCandidates r p).length = 4 := rfl

theorem poolBackfill_of_four_le (pool recs : List Recommendation)
    (h : 4 ≤ recs.length) : poolBackfill pool 5 recs = some recs := by
  show (if recs.length < 4 then _ else some recs) = some recs
  rw [if_neg (by omega)]

theorem priorityQuotaSelect_of_length_eq_four {recs : List Recommendation}
    (h : recs.length = 4) : priorityQuotaSelect recs = recs := by
  unfold priorityQuotaSelect
  rw [if_neg (by omega)]
  exact List.take_of_length_le (by omega)

theorem get_default_eq_cascade (r : Reading) (p : Nat) :
    get_default_recommendations r p = some (cascadeCandidates r p) := by
  unfold get_default_recommendations selectStep
  rw [poolBackfill_of_four_le _ _ (by rw [cascadeCandidates_length])]
  simp [priorityQuotaSelect_of_length_eq_four (cascadeCandidates_length r p)]

theorem countHigh_append (a b : List Recommendation) :
    countHigh (a ++ b) = countHigh a + countHigh b := by
  simp [countHigh, List.filter_append]

theorem countHigh_le_length (l : List Recommendation) : countHigh l ≤ l.length :=
  List.length_filter_le _ l

theorem countHigh_mono_sublist {a b : List Recommendation} (h : a.Sublist b) :
    countHigh a ≤ countHigh b :=
  (h.filter _).length_le

theorem countHigh_eq_zero {l : List Recommendation}
    (h : ∀ x ∈ l, x.priority ≠ Priority.high) : countHigh l = 0 := by
  unfold countHigh
  rw [List.filter_eq_nil_iff.mpr (by intro a ha; simpa using h a ha)]
  rfl

theorem get_ai_of_unavailable (decode : List Char → Option Json)
    (apiKey : Option String) (outcome : RemoteOutcome) (r : Reading) (p : Nat)
    (h : aiPathUnavailable decode outcome) :
    get_ai_recommendations decode apiKey outcome r p =
      some (RecResult.fallback (cascadeCandidates r p)) := by
  cases outcome with
  | exn => simp [get_ai_recommendations, get_default_eq_cascade]
  | reply status content =>
      obtain hs | hc | hp := h
      · simp [get_ai_recommendations, if_neg hs, get_default_eq_cascade]
      · subst hc
        by_cases hs : status = 200 <;>
          simp [get_ai_recommendations, hs, get_default_eq_cascade]
      · by_cases hs : status = 200
        · cases content with
          | none => simp [get_ai_recommendations, hs, get_default_eq_cascade]
          | some c =>
              simp [get_ai_recommendations, hs, hp c rfl, get_default_eq_cascade]
        · simp [get_ai_recommendations, hs, get_default_eq_cascade]

theorem get_ai_isSome (decode : List Char → Option Json)
    (apiKey : Option String) (outcome : RemoteOutcome) (r : Reading) (p : Nat) :
    (get_ai_recommendations decode apiKey outcome r p).isSome = true := by
  cases outcome with
  | exn => simp [get_ai_recommendations, get_default_eq_cascade]
  | reply status content =>
      by_cases hs : status = 200
      · cases content with
        | none => simp [get_ai_recommendations, hs, get_default_eq_cascade]
        | some c =>
            cases hp : parseAiResponse decode c <;>
              simp [get_ai_recommendations, hs, hp, get_default_eq_cascade]
      · simp [get_ai_recommendations, hs, get_default_eq_cascade]

/-- Which thermal branch fires is read off the candidate's priority:
the three if/elif/else branches are mutually exclusive and exhaustive. -/
theorem thermal_branches (r : Reading) :
    ((thermalRecommendation r).priority = Priority.high ↔ temp_diff r > 15) ∧
    ((thermalRecommendation r).priority = Priority.medium ↔
      ¬temp_diff r > 15 ∧ process_temp_c r > 50) ∧
    ((thermalRecommendation r).priority = Priority.low ↔
      ¬temp_diff r > 15 ∧ ¬process_temp_c r > 50) := by
  unfold thermalRecommendation
  split_ifs with h1 h2 <;> simp_all

theorem speed_branches (r : Reading) :
    ((speedRecommendation r).priority = Priority.high ↔ r.rotationalSpeed > 2000) ∧
    ((speedRecommendation r).priority = Priority.medium ↔
      ¬r.rotationalSpeed > 2000 ∧ r.rotationalSpeed < 1000) ∧
    ((speedRecommendation r).priority = Priority.low ↔
      ¬r.rotationalSpeed > 2000 ∧ ¬r.rotationalSpeed < 1000) := by
  unfold speedRecommendation
  split_ifs with h1 h2 <;> simp_all

theorem torque_branches (r : Reading) :
    ((torqueRecommendation r).priority = Priority.high ↔ r.torque > 50) ∧
    ((torqueRecommendation r).priority = Priority.medium ↔
      ¬r.torque > 50 ∧ r.torque < 20) ∧
    ((torqueRecommendation r).priority = Priority.low ↔
      ¬r.torque > 50 ∧ ¬r.torque < 20) := by
  unfold torqueRecommendation
  split_ifs with h1 h2 <;> simp_all

theorem maintenance_branches (p : Nat) :
    ((maintenanceRecommendation p).priority = Priority.high ↔ p = 1) ∧
    ((maintenanceRecommendation p).priority = Priority.low ↔ p ≠ 1) := by
  unfold maintenanceRecommendation
  split_ifs with h <;> simp_all

/-- Scenario A of the spec: reading (airTemp 300 K, processTemp 320 K,
2500 RPM, 60 N·m) — every cascade branch condition is in its High case. -/
def scenarioA : Reading := ⟨300, 320, 2500, 60⟩

theorem countHigh_quota_parts (hp mp lp : List Recommendation) (k m : Nat)
    (hm : ∀ x ∈ mp, x.priority = Priority.medium)
    (hl : ∀ x ∈ lp, x.priority = Priority.low) :
    countHigh (((hp.take 2 ++ mp.take k) ++ lp.take m).take 4) ≤ 2 := by
  refine le_trans (countHigh_mono_sublist (List.take_sublist _ _)) ?_
  rw [countHigh_append, countHigh_append]
  have h1 : countHigh (hp.take 2) ≤ 2 :=
    le_trans (countHigh_le_length _) (by rw [List.length_take]; exact min_le_left _ _)
  have h2 : countHigh (mp.take k) = 0 :=
    countHigh_eq_zero (fun x hx => by rw [hm x (List.mem_of_mem_take hx)]; simp)
  have h3 : countHigh (lp.take m) = 0 :=
    countHigh_eq_zero (fun x hx => by rw [hl x (List.mem_of_mem_take hx)]; simp)
  omega

/-- At Scenario A all four cascade candidates are High priority. -/
theorem countHigh_scenarioA : countHigh (cascadeCandidates scenarioA 1) = 4 := by
  have ht := (thermal_branches scenarioA).1.mpr (by norm_num [temp_diff, scenarioA])
  have hs := (speed_branches scenarioA).1.mpr (by norm_num [scenarioA])
  have htq := (torque_branches scenarioA).1.mpr (by norm_num [scenarioA])
  have hm := (maintenance_branches 1).1.mpr rfl
  simp [countHigh, cascadeCandidates, List.filter, ht, hs, htq, hm]

/-! ## The claims -/

/-- Claim C6: for every input reading and label, the threshold cascade of
the fallback engine appends exactly one candidate per category (thermal,
rotational speed, torque, maintenance urgency) through mutually exclusive
and exhaustive if/elif/else branches, so it always yields exactly 4
category candidates. -/
theorem cascade_exactly_one_per_category :
    ∀ (r : Reading) (p : Nat),
      (cascadeCandidates r p).length = 4 ∧
      cascadeCandidates r p =
        [thermalRecommendation r, speedRecommendation r,
         torqueRecommendation r, maintenanceRecommendation p] ∧
      (((thermalRecommendation r).priority = Priority.high ↔ temp_diff r > 15) ∧
       ((thermalRecommendation r).priority = Priority.medium ↔
         ¬temp_diff r > 15 ∧ process_temp_c r > 50) ∧
       ((thermalRecommendation r).priority = Priority.low ↔
         ¬temp_diff r > 15 ∧ ¬process_temp_c r > 50)) ∧
      (((speedRecommendation r).priority = Priority.high ↔ r.rotationalSpeed > 2000) ∧
       ((speedRecommendation r).priority = Priority.medium ↔
         ¬r.rotationalSpeed > 2000 ∧ r.rotationalSpeed < 1000) ∧
       ((speedRecommendation r).priority = Priority.low ↔
         ¬r.rotationalSpeed > 2000 ∧ ¬r.rotationalSpeed < 1000)) ∧
      (((torqueRecommendation r).priority = Priority.high ↔ r.torque > 50) ∧
       ((torqueRecommendation r).priority = Priority.medium ↔
         ¬r.torque > 50 ∧ r.torque < 20) ∧
       ((torqueRecommendation r).priority = Priority.low ↔
         ¬r.torque > 50 ∧ ¬r.torque < 20)) ∧
      (((maintenanceRecommendation p).priority = Priority.high ↔ p = 1) ∧
       ((maintenanceRecommendation p).priority = Priority.low ↔ p ≠ 1)) :=
  fun r p => ⟨rfl, rfl, thermal_branches r, speed_branches r,
    torque_branches r, maintenance_branches p⟩

/-- Claim C7: at the threshold boundaries of the fallback cascade, a
temperature differential of exactly 15 does not take the
high-differential branch (the comparison is a strict `>`), rotational
speeds of exactly 2000 and exactly 1000 both take the normal-range Low
branch, and torques of exactly 50 and exactly 20 both take the
acceptable-range Low branch. -/
theorem threshold_boundary_behavior (r : Reading) :
    (temp_diff r = 15 → (thermalRecommendation r).priority ≠ Priority.high) ∧
    (r.rotationalSpeed = 2000 →
      (speedRecommendation r).title = "Optimal Speed Range Monitoring" ∧
      (speedRecommendation r).priority = Priority.low) ∧
    (r.rotationalSpeed = 1000 →
      (speedRecommendation r).title = "Optimal Speed Range Monitoring" ∧
      (speedRecommendation r).priority = Priority.low) ∧
    (r.torque = 50 →
      (torqueRecommendation r).title = "Torque Load Optimization" ∧
      (torqueRecommendation r).priority = Priority.low) ∧
    (r.torque = 20 →
      (torqueRecommendation r).title = "Torque Load Optimization" ∧
      (torqueRecommendation r).priority = Priority.low) := by
  refine ⟨?_, ?_, ?_, ?_, ?_⟩ <;> intro h
  · unfold thermalRecommendation
    rw [h, if_neg (by norm_num)]
    split_ifs <;> simp
  · unfold speedRecommendation
    rw [h, if_neg (by norm_num), if_neg (by norm_num)]
    exact ⟨rfl, rfl⟩
  · unfold speedRecommendation
    rw [h, if_neg (by norm_num), if_neg (by norm_num)]
    exact ⟨rfl, rfl⟩
  · unfold torqueRecommendation
    rw [h, if_neg (by norm_num), if_neg (by norm_num)]
    exact ⟨rfl, rfl⟩
  · unfold torqueRecommendation
    rw [h, if_neg (by norm_num), if_neg (by norm_num)]
    exact ⟨rfl, rfl⟩

/-- Witness for C7: concrete readings sitting exactly on the boundaries
(temperature differential 15 K; 2000 and 1000 RPM; 50 and 20 N·m). -/
theorem threshold_boundary_behavior_check :
    (thermalRecommendation ⟨300, 315, 2000, 50⟩).priority ≠ Priority.high ∧
    (speedRecommendation ⟨300, 315, 2000, 50⟩).priority = Priority.low ∧
    (torqueRecommendation ⟨300, 315, 2000, 50⟩).priority = Priority.low ∧
    (speedRecommendation ⟨300, 316, 1000, 20⟩).priority = Priority.low ∧
    (torqueRecommendation ⟨300, 316, 1000, 20⟩).priority = Priority.low :=
  ⟨(threshold_boundary_behavior ⟨300, 315, 2000, 50⟩).1 (by norm_num [temp_diff]),
   ((threshold_boundary_behavior ⟨300, 315, 2000, 50⟩).2.1 rfl).2,
   ((threshold_boundary_behavior ⟨300, 315, 2000, 50⟩).2.2.2.1 rfl).2,
   ((threshold_boundary_behavior ⟨300, 316, 1000, 20⟩).2.2.1 rfl).2,
   ((threshold_boundary_behavior ⟨300, 316, 1000, 20⟩).2.2.2.2 rfl).2⟩

/-- Claim C10: on the fallback path the returned set is precisely the
four cascade candidates in fixed category order — the pool-backfill loop
exits immediately and the more-than-4 quota branch is never taken — and
(at Scenario A) the returned set can contain four High-priority items. -/
theorem default_path_is_cascade_verbatim :
    (∀ (r : Reading) (p : Nat),
        poolBackfill (additional_recommendations r) 5 (cascadeCandidates r p) =
          some (cascadeCandidates r p) ∧
        priorityQuotaSelect (cascadeCandidates r p) = cascadeCandidates r p ∧
        get_default_recommendations r p =
          some [thermalRecommendation r, speedRecommendation r,
                torqueRecommendation r, maintenanceRecommendation p]) ∧
    countHigh (cascadeCandidates scenarioA 1) = 4 :=
  ⟨fun r p => ⟨poolBackfill_of_four_le _ _ (by rw [cascadeCandidates_length]),
      priorityQuotaSelect_of_length_eq_four (cascadeCandidates_length r p),
      get_default_eq_cascade r p⟩,
   countHigh_scenarioA⟩

/-- Counterexample to claim C2 as stated: at Scenario A the cascade
produces a candidate list of length exactly 4 with 4 High-priority items,
the selection step returns it unchanged, and the output contains 4 (not
at most 2) High-priority items — the quota branch only runs on lists of
length strictly greater than 4. -/
theorem quota_claim_fails_at_length_four :
    4 ≤ (cascadeCandidates scenarioA 1).length ∧
    2 ≤ countHigh (cascadeCandidates scenarioA 1) ∧
    selectStep (additional_recommendations scenarioA) (cascadeCandidates scenarioA 1) =
      some (cascadeCandidates scenarioA 1) ∧
    countHigh (cascadeCandidates scenarioA 1) = 4 :=
  ⟨by rw [cascadeCandidates_length], by rw [countHigh_scenarioA]; norm_num,
   get_default_eq_cascade scenarioA 1, countHigh_scenarioA⟩

/-- Claim C2, amended: the priority quota applies only when the candidate
list has length strictly greater than 4.  For every such list with at
least 2 High-priority items, the selection step returns at most 2
High-priority items; a list of length exactly 4 (such as the cascade's
own output) is returned unchanged, so no substitution or pool backfill
happens there. -/
theorem quota_caps_high_above_four :
    ∀ (pool recs : List Recommendation),
      4 < recs.length → 2 ≤ countHigh recs →
      selectStep pool recs = some (priorityQuotaSelect recs) ∧
      countHigh (priorityQuotaSelect recs) ≤ 2 := by
  intro pool recs hlen _hhigh
  constructor
  · unfold selectStep
    rw [poolBackfill_of_four_le _ _ (le_of_lt hlen)]
    rfl
  · unfold priorityQuotaSelect
    rw [if_pos hlen]
    exact countHigh_quota_parts _ _ _ _ _
      (fun x hx => of_decide_eq_true (List.mem_filter.mp hx).2)
      (fun x hx => of_decide_eq_true (List.mem_filter.mp hx).2)

/-- Witness for the amended C2: a concrete 5-element candidate list (the
Scenario A cascade plus one Medium extra) with 4 High-priority items is
cut down to at most 2 High-priority items by the selection step. -/
theorem quota_caps_high_above_four_check :
    selectStep [] (cascadeCandidates scenarioA 1 ++
        [⟨"Extra", "Extra item", "fas fa-plus", Priority.medium⟩]) =
      some (priorityQuotaSelect (cascadeCandidates scenarioA 1 ++
        [⟨"Extra", "Extra item", "fas fa-plus", Priority.medium⟩])) ∧
    countHigh (priorityQuotaSelect (cascadeCandidates scenarioA 1 ++
        [⟨"Extra", "Extra item", "fas fa-plus", Priority.medium⟩])) ≤ 2 :=
  quota_caps_high_above_four []
    (cascadeCandidates scenarioA 1 ++
      [⟨"Extra", "Extra item", "fas fa-plus", Priority.medium⟩])
    (by rw [List.length_append, cascadeCandidates_length]; norm_num)
    (by rw [countHigh_append, countHigh_scenarioA]; omega)

/-- Claim C4: for every outcome of the remote generation call — timeout,
connection error, non-2xx status, or any exception raised during the
request or during parsing — `get_ai_recommendations` returns the
rule-based fallback result, and for every outcome whatsoever the caller
receives a recommendation set (no exception escapes). -/
theorem remote_failure_always_falls_back :
    ∀ (decode : List Char → Option Json) (apiKey : Option String)
      (r : Reading) (p : Nat),
      (∀ outcome, aiPathUnavailable decode outcome →
          get_ai_recommendations decode apiKey outcome r p =
            some (RecResult.fallback (cascadeCandidates r p))) ∧
      (∀ outcome, (get_ai_recommendations decode apiKey outcome r p).isSome = true) :=
  fun decode apiKey r p =>
    ⟨fun outcome h => get_ai_of_unavailable decode apiKey outcome r p h,
     fun outcome => get_ai_isSome decode apiKey outcome r p⟩

/-- Witness for C4: a concrete request exception (timeout/connection
error) produces exactly the fallback set. -/
theorem remote_failure_always_falls_back_check :
    get_ai_recommendations (fun _ => none) (some "key") RemoteOutcome.exn
        ⟨298, 308, 1400, 40⟩ 1 =
      some (RecResult.fallback (cascadeCandidates ⟨298, 308, 1400, 40⟩ 1)) :=
  (remote_failure_always_falls_back (fun _ => none) (some "key")
    ⟨298, 308, 1400, 40⟩ 1).1 RemoteOutcome.exn trivial

/-- Payload body used by the C5 counterexample. -/
def contentC5 : List Char := '{' :: ("\"recommendations\":[\"x\"]".toList ++ ['}'])

/-- A decoder that accepts exactly `contentC5`. -/
def decodeC5 : List Char → Option Json :=
  fun s =>
    if s = contentC5 then
      some (Json.obj [("recommendations", Json.arr [Json.str "x"])])
    else none

/-- Counterexample to C5 as stated: with the credential absent the code
does not transition to the fallback path — nothing checks the key, so a
200 reply whose content parses is still returned as an AI result. -/
theorem missing_credential_claim_fails :
    (get_ai_recommendations decodeC5 none (RemoteOutcome.reply 200 (some contentC5))
        ⟨300, 310, 1500, 30⟩ 0).map RecResult.isFallbackPath = some false := rfl

/-- Claim C5, amended: the absent credential is never checked — the
request is still issued, with the header value `Bearer None` — and the
fallback is reached only through the ordinary remote-failure handling
(non-2xx, exception, or parse failure), with no error raised. -/
theorem missing_credential_fallback_via_failure :
    ∀ (decode : List Char → Option Json) (outcome : RemoteOutcome)
      (r : Reading) (p : Nat),
      aiPathUnavailable decode outcome →
      bearerToken none = "Bearer None" ∧
      get_ai_recommendations decode none outcome r p =
        some (RecResult.fallback (cascadeCandidates r p)) :=
  fun decode outcome r p h => ⟨rfl, get_ai_of_unavailable decode none outcome r p h⟩

/-- Witness for the amended C5: a 500 reply with absent credential yields
the fallback set and the header text `Bearer None`. -/
theorem missing_credential_fallback_via_failure_check :
    bearerToken none = "Bearer None" ∧
    get_ai_recommendations (fun _ => none) none (RemoteOutcome.reply 500 none)
        ⟨301, 311, 1600, 35⟩ 0 =
      some (RecResult.fallback (cascadeCandidates ⟨301, 311, 1600, 35⟩ 0)) :=
  missing_credential_fallback_via_failure (fun _ => none)
    (RemoteOutcome.reply 500 none) ⟨301, 311, 1600, 35⟩ 0
    (Or.inl (by norm_num))

/-- Three fully well-formed recommendation objects (each carries `title`,
`description`, `icon` and a valid `priority` token) — but only three of
them. -/
def threeValidItems : List Json :=
  [Json.obj [("title", Json.str "Bearing Inspection"),
             ("description", Json.str "Inspect the main bearings"),
             ("icon", Json.str "fas fa-cog"),
             ("priority", Json.str "high")],
   Json.obj [("title", Json.str "Coolant Check"),
             ("description", Json.str "Top up and check coolant levels"),
             ("icon", Json.str "fas fa-tint"),
             ("priority", Json.str "medium")],
   Json.obj [("title", Json.str "Filter Replacement"),
             ("description", Json.str "Replace intake air filters"),
             ("icon", Json.str "fas fa-filter"),
             ("priority", Json.str "low")]]

/-- Brace-delimited body of the C1 failing input. -/
def bodyC1 : List Char :=
  '{' :: ("\"recommendations\": [three well-formed items]".toList ++ ['}'])

/-- The C1 failing input: the body wrapped in prose, as a model reply. -/
def contentC1 : List Char :=
  "Here are the recommendations you asked for: ".toList ++ bodyC1

/-- A decoder that decodes exactly `bodyC1`, to the three-item payload. -/
def decodeC1 : List Char → Option Json :=
  fun s =>
    if s = bodyC1 then
      some (Json.obj [("recommendations", Json.arr threeValidItems)])
    else none

/-- Claim C1 evaluated at the failing input: a 200 reply whose content
parses to a `recommendations` array of three well-formed items is
returned verbatim as a 3-element result — `get_ai_recommendations`
performs no arity check, so the AI path can return fewer (or more) than
4 recommendations. -/
theorem ai_path_returns_three_items :
    get_ai_recommendations decodeC1 (some "key")
        (RemoteOutcome.reply 200 (some contentC1)) ⟨300, 310, 1500, 30⟩ 0 =
      some (RecResult.ai (Json.arr threeValidItems)) ∧
    threeValidItems.length = 3 := ⟨rfl, rfl⟩

/-- Brace-delimited body of the C3 counterexample. -/
def bodyC3 : List Char :=
  '{' :: ("\"recommendations\":[\"a\",\"b\",\"c\"]".toList ++ ['}'])

/-- A decoder that decodes exactly `bodyC3`, to a payload whose
recommendations are three bare strings. -/
def decodeC3 : List Char → Option Json :=
  fun s =>
    if s = bodyC3 then
      some (Json.obj [("recommendations",
        Json.arr [Json.str "a", Json.str "b", Json.str "c"])])
    else none

/-- Counterexample to C3 as stated: a payload whose recommendations list
has only 3 elements, none of which carries `title`, `description`,
`icon` or `priority`, is accepted and returned on the AI path — it is
not treated as a parse failure and does not trigger the fallback. -/
theorem unvalidated_payload_accepted :
    get_ai_recommendations decodeC3 (some "key")
        (RemoteOutcome.reply 200 (some bodyC3)) ⟨302, 312, 1700, 45⟩ 0 =
      some (RecResult.ai (Json.arr [Json.str "a", Json.str "b", Json.str "c"])) ∧
    (get_ai_recommendations decodeC3 (some "key")
        (RemoteOutcome.reply 200 (some bodyC3)) ⟨302, 312, 1700, 45⟩ 0).map
      RecResult.isFallbackPath = some false := ⟨rfl, rfl⟩

/-- Claim C3, amended: the parse step accepts a payload exactly when the
brace-delimited substring decodes to a JSON object carrying a
`recommendations` key; the associated value is returned with no
per-element validation, no arity check and no priority-token check, and
any decode failure or missing key (or non-object payload) yields the
rule-based fallback. -/
theorem parse_acceptance_characterization :
    (∀ (decode : List Char → Option Json) (content : List Char) (v : Json),
        parseAiResponse decode content = some v ↔
          ∃ fields, decode (extractJsonCandidate content) = some (Json.obj fields) ∧
            (fields.find? (fun kv => kv.1 == "recommendations")).map
              (fun kv => kv.2) = some v) ∧
    (∀ (decode : List Char → Option Json) (content : List Char)
        (r : Reading) (p : Nat),
        parseAiResponse decode content = none →
        get_ai_recommendations decode none
            (RemoteOutcome.reply 200 (some content)) r p =
          some (RecResult.fallback (cascadeCandidates r p))) := by
  constructor
  · intro decode content v
    unfold parseAiResponse
    cases hd : decode (extractJsonCandidate content) with
    | none => simp
    | some payload => cases payload <;> simp [Json.getKey]
  · intro decode content r p hp
    simp [get_ai_recommendations, hp, get_default_eq_cascade]

/-- Witness for the amended C3: a decoder that fails yields the fallback
set on a 200 reply. -/
theorem parse_acceptance_characterization_check :
    get_ai_recommendations (fun _ => none) none
        (RemoteOutcome.reply 200 (some [])) ⟨299, 309, 1450, 25⟩ 0 =
      some (RecResult.fallback (cascadeCandidates ⟨299, 309, 1450, 25⟩ 0)) :=
  parse_acceptance_characterization.2 (fun _ => none) [] ⟨299, 309, 1450, 25⟩ 0 rfl

theorem firstIdx_append_of_not_mem {c : Char} {pre : List Char} (rest : List Char)
    (h : c ∉ pre) : firstIdx c (pre ++ c :: rest) = some pre.length := by
  induction pre with
  | nil => simp [firstIdx]
  | cons a as ih =>
      have ha : ¬a = c := fun e => h (by simp [e])
      have hm : c ∉ as := fun hmem => h (List.mem_cons_of_mem _ hmem)
      simp [firstIdx, ha, ih hm]

theorem pyFind_first_brace {pre : List Char} (mid suf : List Char)
    (h : '{' ∉ pre) :
    pyFind (pre ++ '{' :: (mid ++ '}' :: suf)) '{' = (pre.length : Int) := by
  unfold pyFind
  rw [firstIdx_append_of_not_mem _ h]

theorem pyRfind_last_brace (pre mid : List Char) {suf : List Char}
    (h : '}' ∉ suf) :
    pyRfind (pre ++ '{' :: (mid ++ '}' :: suf)) '}' =
      (pre.length : Int) + mid.length + 1 := by
  unfold pyRfind
  have hsplit : pre ++ '{' :: (mid ++ '}' :: suf) =
      (pre ++ '{' :: mid) ++ '}' :: suf := by simp
  rw [hsplit, List.reverse_append,
    show ('}' :: suf).reverse = suf.reverse ++ '}' :: [] from by simp,
    List.append_assoc, List.singleton_append,
    firstIdx_append_of_not_mem _ (by simpa using h)]
  simp [List.length_append]
  omega

theorem pyClampIndex_of_le {n : Nat} (k : Nat) (h : k ≤ n) :
    pyClampIndex n (k : Int) = k := by
  unfold pyClampIndex
  rw [if_neg (by omega), Int.toNat_natCast]
  omega

theorem extractJsonCandidate_wrapped {pre : List Char} (mid : List Char)
    {suf : List Char} (hpre : '{' ∉ pre) (hsuf : '}' ∉ suf) :
    extractJsonCandidate (pre ++ '{' :: (mid ++ '}' :: suf)) =
      '{' :: (mid ++ ['}']) := by
  unfold extractJsonCandidate pySlice
  rw [pyFind_first_brace mid suf hpre, pyRfind_last_brace pre mid hsuf]
  have hn : (pre ++ '{' :: (mid ++ '}' :: suf)).length =
      pre.length + mid.length + suf.length + 2 := by
    simp [List.length_append]
    omega
  rw [show (pre.length : Int) + mid.length + 1 + 1 =
        ((pre.length + mid.length + 2 : Nat) : Int) from by push_cast; ring, hn]
  dsimp only
  rw [pyClampIndex_of_le _ (by omega), pyClampIndex_of_le _ (by omega),
      show pre.length + mid.length + 2 - pre.length = mid.length + 2 from by omega,
      List.drop_left, show mid.length + 2 = (mid.length + 1) + 1 from rfl,
      List.take_succ_cons, List.take_append_eq_append_take,
      List.take_of_length_le (Nat.le_succ _),
      show mid.length + 1 - mid.length = 1 from by omega]
  rfl

/-- Claim C8: the JSON-extraction step takes exactly the substring from
the first `'{'` to the last `'}'` (inclusive) and hands that substring
to the structural JSON decoder; in particular, text that wraps a valid
recommendations object in prose or markdown fences is extracted and
accepted. -/
theorem extraction_first_to_last_brace :
    ∀ (pre mid suf : List Char) (decode : List Char → Option Json)
      (payload v : Json),
      '{' ∉ pre → '}' ∉ suf →
      extractJsonCandidate (pre ++ '{' :: (mid ++ '}' :: suf)) =
        '{' :: (mid ++ ['}']) ∧
      (decode ('{' :: (mid ++ ['}'])) = some payload →
        payload.getKey "recommendations" = some v →
        parseAiResponse decode (pre ++ '{' :: (mid ++ '}' :: suf)) = some v) := by
  intro pre mid suf decode payload v hpre hsuf
  have hex := extractJsonCandidate_wrapped mid hpre hsuf
  refine ⟨hex, fun hdec hkey => ?_⟩
  unfold parseAiResponse
  rw [hex, hdec]
  exact hkey

/-- Brace-delimited body used by the C8 witness. -/
def bodyC8 : List Char := '{' :: ("\"recommendations\":[1,2,3,4]".toList ++ ['}'])

/-- The valid 4-item payload of the C8 witness. -/
def payloadC8 : Json :=
  Json.obj [("recommendations",
    Json.arr [Json.num 1, Json.num 2, Json.num 3, Json.num 4])]

/-- A decoder that decodes exactly `bodyC8`. -/
def decodeC8 : List Char → Option Json :=
  fun s => if s = bodyC8 then some payloadC8 else none

/-- Witness for C8 (spec Scenario B): a reply wrapping the valid 4-item
object in prose is extracted exactly between the outermost braces and
accepted. -/
theorem extraction_first_to_last_brace_check :
    extractJsonCandidate ("Sure! here is the JSON: ".toList ++
        '{' :: ("\"recommendations\":[1,2,3,4]".toList ++
          '}' :: " hope it helps".toList)) =
      '{' :: ("\"recommendations\":[1,2,3,4]".toList ++ ['}']) ∧
    parseAiResponse decodeC8 ("Sure! here is the JSON: ".toList ++
        '{' :: ("\"recommendations\":[1,2,3,4]".toList ++
          '}' :: " hope it helps".toList)) =
      some (Json.arr [Json.num 1, Json.num 2, Json.num 3, Json.num 4]) := by
  have h := extraction_first_to_last_brace "Sure! here is the JSON: ".toList
    "\"recommendations\":[1,2,3,4]".toList " hope it helps".toList decodeC8
    payloadC8 (Json.arr [Json.num 1, Json.num 2, Json.num 3, Json.num 4])
    (by decide) (by decide)
  exact ⟨h.1, h.2 rfl rfl⟩

/-- The estimated power as the SPEC words it
(`torque · rotationalSpeed · 2π / 60000`, the exact angular-velocity
conversion): written from the spec, for comparison with the source's
`power_estimate`. -/
noncomputable def spec_estimatedPowerKw (r : Reading) : ℝ :=
  (r.torque : ℝ) * (r.rotationalSpeed : ℝ) * (2 * Real.pi) / 60000

/-- Counterexample to C9 as stated: at torque 1 N·m and 30000 RPM the
source's estimate is the rational 3.14159, while the spec's exact-2π
formula gives π — the source approximates π by the literal 3.14159
(line 139's comment itself calls it approximate). -/
theorem power_constant_is_not_two_pi :
    ((power_estimate ⟨300, 320, 30000, 1⟩ : ℚ) : ℝ) ≠
      spec_estimatedPowerKw ⟨300, 320, 30000, 1⟩ := by
  have hq : power_estimate ⟨300, 320, 30000, 1⟩ = 3.14159 := by
    norm_num [power_estimate]
  have hs : spec_estimatedPowerKw ⟨300, 320, 30000, 1⟩ = Real.pi := by
    unfold spec_estimatedPowerKw
    push_cast
    ring
  rw [hq, hs]
  intro h
  have hpi := Real.pi_gt_d6
  rw [← h] at hpi
  norm_num at hpi

/-- Claim C9, amended: tempDiffK is processTemp − airTemp, the Celsius
conversions subtract exactly 273.15, and the power estimate is
`torque · rotationalSpeed · 2 · 3.14159 / 60000` — the literal 3.14159
in place of the spec's exact π. -/
theorem derived_metric_formulas :
    ∀ r : Reading,
      temp_diff r = r.processTemp - r.airTemp ∧
      air_temp_c r + 273.15 = r.airTemp ∧
      process_temp_c r + 273.15 = r.processTemp ∧
      temp_diff r = process_temp_c r - air_temp_c r ∧
      60000 * power_estimate r = r.torque * r.rotationalSpeed * 2 * 3.14159 ∧
      ((power_estimate r : ℚ) : ℝ) =
        ((r.torque : ℝ) * (r.rotationalSpeed : ℝ) * 2 * 3.14159) / 60000 := by
  intro r
  refine ⟨rfl, ?_, ?_, ?_, ?_, ?_⟩
  · unfold air_temp_c; ring
  · unfold process_temp_c; ring
  · unfold temp_diff process_temp_c air_temp_c; ring
  · unfold power_estimate; ring
  · unfold power_estimate; push_cast; ring

end PredMaint
